import Mathlib

/-!
Verification model of the tattoo-AI processing pipeline
(FastAPI intake, RabbitMQ consumer, Cloudinary storage, Reve AI adapter).

The definitions below are a shallow embedding of the Python sources:
  handlers/rabbitmq_client.py   (consume_messages / wrapper_callback)
  handlers/ai_client.py         (AITattooClient.apply_tattoo_to_body)
  handlers/cloudinary_client.py (upload/download/delete/get_file_url)
  background/work.py            (process_tattoo_task, process_legacy_image_task,
                                 route_message, send_webhook_result)
  main.py                       (upload_tattoo_images, file URL and delete endpoints)

External collaborators (PIL image decoding and encoding, the Reve HTTP
endpoint, base64 decoding, json parsing of request parameters, Cloudinary
storage outcomes, webhook delivery) are modelled as oracle functions supplied
through environment records; the repository code itself is translated
directly, branch by branch.
-/

namespace Tattoo

/-- Raw binary payloads (image bytes) as byte lists. -/
abbrev Bytes := List Nat

/-- What PIL Image.open exposes on a successfully decoded image:
width, height and the declared format (None possible). -/
structure ImgInfo where
  width : Nat
  height : Nat
  fmt : Option String
deriving DecidableEq

/-- Python truthiness of an optional string: present and non-empty.
Models the pervasive checks of the form: if not x. -/
def truthy : Option String → Bool
  | none => false
  | some s => !s.isEmpty

/-- The metadata dict carried inside a queued message.  Only the keys the
workers actually read are modelled: jobId and socketId (background/work.py
lines 203-204) and content_type (legacy task, line 285). -/
structure Metadata where
  jobId : Option String := none
  socketId : Option String := none
  content_type : Option String := none
deriving DecidableEq

/-- A decoded queue message (the JSON dict).  Absent keys are none; the
workers read every field through message.get with the defaults shown in
background/work.py lines 74-79 and 239-241. -/
structure Message where
  task_type : Option String := none
  body_filename : Option String := none
  tattoo_filename : Option String := none
  input_folder : Option String := none
  output_folder : Option String := none
  styles : List String := []
  colors : List String := []
  description : String := ""
  filename : Option String := none
  bucket : Option String := none
  metadata : Metadata := {}
deriving DecidableEq

/-- The object store: an association list from public id (folder/filename)
to stored bytes.  putObj prepends, findObj returns the newest entry, so a
second put to the same key overwrites. -/
abbrev Store := List (String × Bytes)

def findObj : Store → String → Option Bytes
  | [], _ => none
  | (k, v) :: rest, key => if k = key then some v else findObj rest key

def putObj (st : Store) (key : String) (v : Bytes) : Store :=
  (key, v) :: st

/-- Observable side effects of one worker-task invocation. -/
inductive Effect where
  | aiCall
  | validatedImg (width height : Nat)
  | upload (key : String)
  | webhook (jobId : String)
deriving DecidableEq

def hasAiCall : List Effect → Bool
  | [] => false
  | Effect.aiCall :: _ => true
  | _ :: rest => hasAiCall rest

def hasValidated : List Effect → Bool
  | [] => false
  | Effect.validatedImg _ _ :: _ => true
  | _ :: rest => hasValidated rest

def hasUpload : List Effect → Bool
  | [] => false
  | Effect.upload _ :: _ => true
  | _ :: rest => hasUpload rest

def hasWebhook : List Effect → Bool
  | [] => false
  | Effect.webhook _ :: _ => true
  | _ :: rest => hasWebhook rest

/-- How a Python task function terminates: normal completion of the full
pipeline, an early return (validation-style failure, only logged), or an
exception propagating out of it. -/
inductive TaskExit where
  | completed
  | earlyReturn
  | raised
deriving DecidableEq

/-- The outcome of one task invocation: how it exited, the object store
afterwards, and the ordered effects it performed. -/
structure TaskResult where
  exit : TaskExit
  store : Store
  effects : List Effect
deriving DecidableEq

/-- Classified exceptions raised by AITattooClient.apply_tattoo_to_body.
contentViolation is the ValueError raised at ai_client.py lines 168-172
when the Reve response flags content_violation. -/
inductive AIError where
  | contentViolation
  | valueError (msg : String)
  | requestExn (msg : String)
deriving DecidableEq

/-- The parsed JSON body of a Reve API response (the fields the client
reads): the content_violation flag and the base64 image string, absent or
empty when the service returned none. -/
structure ReveResponse where
  content_violation : Bool
  image : Option String
deriving DecidableEq

/-- Outcome of the HTTP exchange with the Reve endpoint, as classified by
the try/except blocks of ai_client.py lines 121-165. -/
inductive ReveOutcome where
  | httpError (status : Nat) (msg : String)
  | timeout
  | requestError (msg : String)
  | badJson
  | response (r : ReveResponse)
deriving DecidableEq

/-- AITattooClient.apply_tattoo_to_body (ai_client.py lines 39-195), from
the point the HTTP exchange finished.  b64decode is the base64 oracle.
Every failure class is a raised exception (Except.error); only a present,
non-empty, decodable image field yields bytes. -/
def apply_tattoo_to_body (b64decode : String → Option Bytes) (o : ReveOutcome) :
    Except AIError Bytes :=
  match o with
  | ReveOutcome.httpError _ msg => Except.error (AIError.valueError msg)
  | ReveOutcome.timeout => Except.error (AIError.valueError "Timeout en la peticion a Reve API")
  | ReveOutcome.requestError msg => Except.error (AIError.requestExn msg)
  | ReveOutcome.badJson => Except.error (AIError.valueError "Respuesta invalida de Reve API")
  | ReveOutcome.response r =>
    if r.content_violation then
      Except.error AIError.contentViolation
    else
      match r.image with
      | none => Except.error (AIError.valueError "Reve API no devolvio una imagen en la respuesta")
      | some s =>
        if s.isEmpty then
          Except.error (AIError.valueError "Reve API no devolvio una imagen en la respuesta")
        else
          match b64decode s with
          | some bytes => Except.ok bytes
          | none => Except.error (AIError.valueError "Error decodificando la imagen generada")

/-- Outcome of the webhook POST performed by send_webhook_result. -/
inductive WebhookOutcome where
  | ok200
  | non200
  | exn
deriving DecidableEq

/-- send_webhook_result (background/work.py lines 18-51): performs one POST;
a non-200 response and any exception are only printed, so the function
returns normally in every case and the outcome does not influence anything.
The single effect records that the POST was attempted. -/
def send_webhook_result (_outcome : WebhookOutcome) (jobId : String) : List Effect :=
  [Effect.webhook jobId]

/-- Oracles for the external collaborators of a worker process:
PIL decode (Image.open) and encode (img.save), the AI adapter call, the
per-key success of a Cloudinary upload (a failed upload raises), and the
webhook delivery outcome. -/
structure WorkerEnv where
  decodeImage : Bytes → Option ImgInfo
  encodeImage : Nat → Nat → String → Bytes
  ai : Bytes → Bytes → List String → List String → String → Except AIError Bytes
  uploadOk : String → Bool
  webhookOutcome : WebhookOutcome

/-- process_tattoo_task (background/work.py lines 53-230).
Validation failures and a not-found download return early (only logged);
an AI-adapter exception or a failed upload propagates (the outer except
re-raises, line 230); the result is uploaded under
output_folder/result_(body_filename); URL generation failure is caught and
only logged (lines 179-186), so it is not a failure path; the webhook is
attempted only when metadata.jobId is truthy. -/
def process_tattoo_task (env : WorkerEnv) (st : Store) (msg : Message) : TaskResult :=
  if !(truthy msg.task_type) then ⟨TaskExit.earlyReturn, st, []⟩
  else if msg.task_type ≠ some "tattoo_application" then ⟨TaskExit.earlyReturn, st, []⟩
  else if !(truthy msg.body_filename) then ⟨TaskExit.earlyReturn, st, []⟩
  else if !(truthy msg.tattoo_filename) then ⟨TaskExit.earlyReturn, st, []⟩
  else
    let body_filename := msg.body_filename.getD ""
    let tattoo_filename := msg.tattoo_filename.getD ""
    let input_folder := msg.input_folder.getD "input-images"
    let output_folder := msg.output_folder.getD "output-images"
    match findObj st (input_folder ++ "/" ++ body_filename) with
    | none => ⟨TaskExit.earlyReturn, st, []⟩
    | some body_data =>
      match findObj st (input_folder ++ "/" ++ tattoo_filename) with
      | none => ⟨TaskExit.earlyReturn, st, []⟩
      | some tattoo_data =>
        match env.ai body_data tattoo_data msg.styles msg.colors msg.description with
        | Except.error _ => ⟨TaskExit.raised, st, [Effect.aiCall]⟩
        | Except.ok result_bytes =>
          match env.decodeImage result_bytes with
          | none => ⟨TaskExit.earlyReturn, st, [Effect.aiCall]⟩
          | some info =>
            let result_filename := "result_" ++ body_filename
            let result_public_id := output_folder ++ "/" ++ result_filename
            if env.uploadOk result_public_id then
              let st1 := putObj st result_public_id result_bytes
              let effs := [Effect.aiCall, Effect.validatedImg info.width info.height,
                           Effect.upload result_public_id]
              if truthy msg.metadata.jobId then
                ⟨TaskExit.completed, st1,
                  effs ++ send_webhook_result env.webhookOutcome (msg.metadata.jobId.getD "")⟩
              else
                ⟨TaskExit.completed, st1, effs⟩
            else
              ⟨TaskExit.raised, st, [Effect.aiCall, Effect.validatedImg info.width info.height]⟩

/-- Integer ceiling division (used to model math.ceil of an exact ratio). -/
def ceilDiv (a b : Nat) : Nat := (a + b - 1) / b

/-- Pillow round_aspect for the branch x / y >= aspect of Image.thumbnail
with size (300, 300): choose between floor and ceil of 300 * w / h,
minimizing the distance of n / 300 from the aspect w / h (tie goes to the
floor, as Python min does), then at least 1.  The float key comparison
abs(w / h - n / 300) is modelled exactly: scaled by the positive constant
300 * h it becomes the integer comparison of abs(300 * w - n * h). -/
def round_aspect1 (w h : Nat) : Nat :=
  let f := 300 * w / h
  let c := ceilDiv (300 * w) h
  let keyf := ((300 * w : Int) - f * h).natAbs
  let keyc := ((300 * w : Int) - c * h).natAbs
  max (if keyf ≤ keyc then f else c) 1

/-- Pillow round_aspect for the other branch of Image.thumbnail with size
(300, 300): floor and ceil of 300 * h / w, key 0 if n == 0 else
abs(w / h - 300 / n).  For positive candidates the key comparison, scaled
by the positive h * f * c, is abs(w * f - 300 * h) * c vs
abs(w * c - 300 * h) * f. -/
def round_aspect2 (w h : Nat) : Nat :=
  let f := 300 * h / w
  let c := ceilDiv (300 * h) w
  let pick :=
    if f = 0 then f
    else if ((w * f : Int) - 300 * h).natAbs * c ≤ ((w * c : Int) - 300 * h).natAbs * f then f
    else c
  max pick 1

/-- PIL Image.thumbnail((300, 300)) acting on an image of size w x h:
if the image already fits in the 300 x 300 box it is left unchanged;
otherwise it is shrunk preserving the aspect ratio (the branch condition
x / y >= aspect with x = y = 300 is h >= w). -/
def pil_thumbnail (w h : Nat) : Nat × Nat :=
  if 300 ≥ w ∧ 300 ≥ h then (w, h)
  else if h ≥ w then (round_aspect1 w h, 300)
  else (300, round_aspect2 w h)

/-- The default applied at background/work.py line 277 when saving:
img.format or PNG (Python or, so an empty format string also falls back). -/
def formatOrPng : Option String → String
  | none => "PNG"
  | some s => if s.isEmpty then "PNG" else s

/-- process_legacy_image_task (background/work.py lines 233-292).
Missing fields and a not-found download return early; here Image.open is
NOT wrapped in an inner try, so undecodable bytes raise (re-raised at line
292); the thumbnail is re-uploaded to the same bucket under
processed_(filename).  No AI call and no webhook are ever performed. -/
def process_legacy_image_task (env : WorkerEnv) (st : Store) (msg : Message) : TaskResult :=
  if !(truthy msg.filename) then ⟨TaskExit.earlyReturn, st, []⟩
  else if !(truthy msg.bucket) then ⟨TaskExit.earlyReturn, st, []⟩
  else
    let filename := msg.filename.getD ""
    let bucket := msg.bucket.getD ""
    match findObj st (bucket ++ "/" ++ filename) with
    | none => ⟨TaskExit.earlyReturn, st, []⟩
    | some image_data =>
      match env.decodeImage image_data with
      | none => ⟨TaskExit.raised, st, []⟩
      | some info =>
        let dims := pil_thumbnail info.width info.height
        let processed_filename := "processed_" ++ filename
        let key := bucket ++ "/" ++ processed_filename
        if env.uploadOk key then
          ⟨TaskExit.completed,
            putObj st key (env.encodeImage dims.1 dims.2 (formatOrPng info.fmt)),
            [Effect.validatedImg dims.1 dims.2, Effect.upload key]⟩
        else
          ⟨TaskExit.raised, st, []⟩

/-- route_message (background/work.py lines 295-306): dispatch on
task_type; an unknown type is only printed, the function returns
normally. -/
def route_message (env : WorkerEnv) (st : Store) (msg : Message) : TaskResult :=
  if msg.task_type = some "tattoo_application" then process_tattoo_task env st msg
  else if msg.task_type = some "image_processing" then process_legacy_image_task env st msg
  else ⟨TaskExit.earlyReturn, st, []⟩

/-- Result of evaluating json.loads(body.decode(utf-8)) on a delivered
body (rabbitmq_client.py line 178).  A body that decodes as UTF-8 but is
not valid JSON raises json.JSONDecodeError; a body that is not valid UTF-8
(for example the single byte 0xFF) raises UnicodeDecodeError, which is NOT
a json.JSONDecodeError. -/
inductive ParseOutcome where
  | ok (m : Message)
  | jsonDecodeError
  | unicodeDecodeError
deriving DecidableEq

/-- The acknowledgment the consumer performs for one delivery. -/
inductive AckAction where
  | ack
  | nackRequeue
  | nackDrop
  | noAction
deriving DecidableEq

/-- wrapper_callback inside RabbitMQClient.consume_messages
(rabbitmq_client.py lines 175-196), with the workers callback
route_message.  json.JSONDecodeError is nacked with requeue=False; every
other exception (including UnicodeDecodeError from body.decode and
anything the callback raises) is nacked with requeue=True; a callback
that returns normally is acked.  Both workers consume with
auto_ack=False. -/
def wrapper_callback (env : WorkerEnv) (auto_ack : Bool) (st : Store) (p : ParseOutcome) :
    AckAction × Store × List Effect :=
  match p with
  | ParseOutcome.jsonDecodeError =>
    (if auto_ack then AckAction.noAction else AckAction.nackDrop, st, [])
  | ParseOutcome.unicodeDecodeError =>
    (if auto_ack then AckAction.noAction else AckAction.nackRequeue, st, [])
  | ParseOutcome.ok m =>
    let r := route_message env st m
    match r.exit with
    | TaskExit.raised =>
      (if auto_ack then AckAction.noAction else AckAction.nackRequeue, r.store, r.effects)
    | _ =>
      (if auto_ack then AckAction.noAction else AckAction.ack, r.store, r.effects)

/-! ### Intake endpoint (main.py) -/

/-- INPUT_FOLDER default (main.py line 19). -/
def INPUT_FOLDER : String := "input-images"

/-- OUTPUT_FOLDER default (main.py line 20). -/
def OUTPUT_FOLDER : String := "output-images"

/-- One multipart file upload: the declared content type header and the
buffered bytes. -/
structure UploadFile where
  content_type : Option String
  content : Bytes
deriving DecidableEq

/-- The fields of a POST /upload/ request (main.py lines 113-119). -/
structure UploadRequest where
  body_image : UploadFile
  tattoo_image : UploadFile
  socket_id : Option String := none
  styles : Option String := none
  colors : Option String := none
  description : Option String := none
deriving DecidableEq

/-- Oracles for the intake endpoint: whether the lazily initialized
clients are available, json.loads on the styles/colors parameters
(none models a JSONDecodeError), PIL decode of the uploaded bytes,
per-key Cloudinary upload success, publish_message success, and the
uuid4 values drawn for the two filenames and the job id. -/
structure ApiEnv where
  servicesOk : Bool
  jsonList : String → Option (List String)
  decodeImage : Bytes → Option ImgInfo
  uploadOk : String → Bool
  publishOk : Bool
  bodyUuid : String
  tattooUuid : String
  jobUuid : String

/-- Side effects of one intake request: object-store writes and queue
publishes. -/
inductive ApiEffect where
  | storeWrite (key : String)
  | publish (m : Message)
deriving DecidableEq

/-- The endpoint outcome: an HTTPException with status and detail, or the
success payload (the response fields the claims mention). -/
inductive ApiResult where
  | httpError (status : Nat) (detail : String)
  | success (jobId : String) (body_filename tattoo_filename : String)
      (task_queued : Bool) (expected_output : String)
deriving DecidableEq

/-- List-level prefix test (structural, so that it evaluates inside the
kernel): does the first list occur at the head of the second? -/
def strPrefixAux : List Char → List Char → Bool
  | [], _ => true
  | _ :: _, [] => false
  | a :: as, b :: bs => if a = b then strPrefixAux as bs else false

/-- Python str.startswith, modelled on the character lists of the two
strings. -/
def starts_with (s pre : String) : Bool := strPrefixAux pre.data s.data

/-- The content-type guard of main.py lines 176 and 183: valid iff the
declared type is present, non-empty and starts with image/. -/
def image_content_type : Option String → Bool
  | none => false
  | some s => starts_with s "image/"

/-- Detail string of the 400 raised for an invalid upload content type
(main.py lines 176-187), naming which upload failed. -/
def invalid_type_detail (which : String) (ct : Option String) : String :=
  "Tipo de archivo no válido para " ++ which ++ ": " ++ ct.getD "None" ++
    ". Solo se admiten imágenes."

/-- Detail of the 400 raised when the styles parameter is not valid JSON
(main.py lines 154-161). -/
def styles_error_detail : String := "El parámetro styles debe ser una lista JSON válida"

/-- Detail of the 400 raised when the colors parameter is not valid JSON
(main.py lines 163-170). -/
def colors_error_detail : String := "El parámetro colors debe ser una lista JSON válida"

/-- Detail prefix of the 503 when the clients cannot be obtained
(main.py lines 141-148). -/
def services_error_detail : String := "Los servicios no están disponibles"

/-- Detail prefix of the generic 500 of the outer try (main.py
lines 315-319). -/
def processing_error_detail : String := "Error al procesar o subir las imágenes"

/-- Detail of the 500 raised when publish_message returned False
(main.py lines 271-275). -/
def queue_error_detail : String := "Error al encolar la tarea en RabbitMQ"

/-- The expected_output value the intake endpoint reports in its success
response (main.py line 309). -/
def expected_output (body_filename : String) : String :=
  "result_" ++ body_filename ++ ".png"

/-- The per-parameter block of main.py lines 150-170: an absent optional
parameter yields the empty list, a present one goes through json.loads
(none models the JSONDecodeError that becomes a 400). -/
def parse_json_param (jsonList : String → Option (List String)) :
    Option String → Option (List String)
  | none => some []
  | some s => jsonList s

/-- Whether an optional JSON-encoded list parameter parses: an absent
parameter is fine (defaults to the empty list), a present one must be
accepted by json.loads. -/
def param_parses (jsonList : String → Option (List String)) (p : Option String) : Bool :=
  (parse_json_param jsonList p).isSome

/-- upload_tattoo_images (main.py lines 112-319), step by step in source
order: obtain clients (503 on failure), parse the optional styles then
colors JSON parameters (400 on failure), validate the two declared
content types (400 naming the failing upload), decode both images (a PIL
failure falls into the generic except, 500), upload both inputs, build
the job message, publish it (500 when publish_message returns False),
and report success with expected_output result_(body_filename).png. -/
def upload_tattoo_images (env : ApiEnv) (req : UploadRequest) :
    ApiResult × List ApiEffect :=
  if !env.servicesOk then
    (ApiResult.httpError 503 services_error_detail, [])
  else
    match parse_json_param env.jsonList req.styles with
    | none => (ApiResult.httpError 400 styles_error_detail, [])
    | some parsed_styles =>
      match parse_json_param env.jsonList req.colors with
      | none => (ApiResult.httpError 400 colors_error_detail, [])
      | some parsed_colors =>
        if !(image_content_type req.body_image.content_type) then
          (ApiResult.httpError 400 (invalid_type_detail "body_image" req.body_image.content_type), [])
        else if !(image_content_type req.tattoo_image.content_type) then
          (ApiResult.httpError 400 (invalid_type_detail "tattoo_image" req.tattoo_image.content_type), [])
        else
          match env.decodeImage req.body_image.content with
          | none => (ApiResult.httpError 500 processing_error_detail, [])
          | some _bodyInfo =>
            match env.decodeImage req.tattoo_image.content with
            | none => (ApiResult.httpError 500 processing_error_detail, [])
            | some _tattooInfo =>
              let body_filename := "body_" ++ env.bodyUuid
              let tattoo_filename := "tattoo_" ++ env.tattooUuid
              let bodyKey := INPUT_FOLDER ++ "/" ++ body_filename
              if !(env.uploadOk bodyKey) then
                (ApiResult.httpError 500 processing_error_detail, [])
              else
                let tattooKey := INPUT_FOLDER ++ "/" ++ tattoo_filename
                if !(env.uploadOk tattooKey) then
                  (ApiResult.httpError 500 processing_error_detail,
                    [ApiEffect.storeWrite bodyKey])
                else
                  let job_id := env.jobUuid
                  let msg : Message :=
                    { task_type := some "tattoo_application",
                      body_filename := some body_filename,
                      tattoo_filename := some tattoo_filename,
                      input_folder := some INPUT_FOLDER,
                      output_folder := some OUTPUT_FOLDER,
                      styles := parsed_styles,
                      colors := parsed_colors,
                      description := req.description.getD "",
                      metadata := { jobId := some job_id, socketId := req.socket_id } }
                  if env.publishOk then
                    (ApiResult.success job_id body_filename tattoo_filename true
                        (expected_output body_filename),
                      [ApiEffect.storeWrite bodyKey, ApiEffect.storeWrite tattooKey,
                       ApiEffect.publish msg])
                  else
                    (ApiResult.httpError 500 queue_error_detail,
                      [ApiEffect.storeWrite bodyKey, ApiEffect.storeWrite tattooKey])

/-! ### Cloudinary URL and delete endpoints -/

/-- Outcome of cloudinary.uploader.destroy for a public id: the result
field is ok, some other value (not found for a missing object), or the
call raised. -/
inductive DestroyOutcome where
  | okRes
  | notFound
  | exn (msg : String)
deriving DecidableEq

/-- Oracles for the Cloudinary client used by the file endpoints:
the unsigned URL for a public id, the signed URL for a public id and an
absolute expiry timestamp, the current time, resource existence, and the
destroy outcome per public id. -/
structure CloudEnv where
  unsignedUrl : String → String
  signedUrl : String → Nat → String
  now : Nat
  file_exists : String → Bool
  destroy : String → DestroyOutcome

/-- CloudinaryClient.get_file_url (cloudinary_client.py lines 104-137):
with use_presigned a signed URL expiring at now + expires; otherwise the
plain unsigned URL, which does not depend on expires at all. -/
def cloudinary_get_file_url (env : CloudEnv) (public_id : String) (expires : Nat)
    (use_presigned : Bool) : String :=
  if use_presigned then env.signedUrl public_id (env.now + expires)
  else env.unsignedUrl public_id

/-- Success message of CloudinaryClient.delete_file when destroy reported
ok (cloudinary_client.py line 74). -/
def delete_ok_message (public_id : String) : String :=
  "Eliminado con éxito " ++ public_id ++ "."

/-- Warning message of CloudinaryClient.delete_file when destroy reported
anything else, e.g. not found (cloudinary_client.py line 76). -/
def delete_warn_message (public_id : String) : String :=
  "Advertencia: El archivo " ++ public_id ++ " no se pudo eliminar."

/-- CloudinaryClient.delete_file (cloudinary_client.py lines 69-78):
returns a message string in both the ok and the non-ok case; only an
exception from destroy is re-raised (Except.error). -/
def cloudinary_delete_file (env : CloudEnv) (public_id : String) : Except String String :=
  match env.destroy public_id with
  | DestroyOutcome.okRes => Except.ok (delete_ok_message public_id)
  | DestroyOutcome.notFound => Except.ok (delete_warn_message public_id)
  | DestroyOutcome.exn m => Except.error ("Error al eliminar el archivo: " ++ m)

/-- Response of GET /files/(folder)/(filename). -/
structure FileUrlResponse where
  folder : String
  filename : String
  url : String
  expires_in_seconds : Nat
deriving DecidableEq

/-- Outcome of the URL endpoint: the JSON body or an HTTPException. -/
inductive UrlEndpointResult where
  | ok (r : FileUrlResponse)
  | httpError (status : Nat) (detail : String)
deriving DecidableEq

/-- GET /files/(folder)/(filename) (main.py lines 345-380): 404 when the
object does not exist; otherwise the URL is produced by
cloudinary_client.get_file_url(public_id, expires=expires) - use_presigned
is left at its default False - and the response echoes the requested
expires value as expires_in_seconds. -/
def api_get_file_url (env : CloudEnv) (folder filename : String) (expires : Nat) :
    UrlEndpointResult :=
  let public_id := folder ++ "/" ++ filename
  if !(env.file_exists public_id) then
    UrlEndpointResult.httpError 404
      ("Archivo " ++ filename ++ " no encontrado en carpeta " ++ folder)
  else
    UrlEndpointResult.ok
      ⟨folder, filename, cloudinary_get_file_url env public_id expires false, expires⟩

/-- Outcome of the delete endpoint: the JSON body (status and message) or
an HTTPException. -/
inductive DeleteEndpointResult where
  | ok (status message : String)
  | httpError (status : Nat) (detail : String)
deriving DecidableEq

/-- DELETE /files/(folder)/(filename) (main.py lines 383-403): whenever
delete_file returns a message - including the warning for a nonexistent
object - the endpoint answers status success with that message; only an
exception becomes a 500. -/
def api_delete_file (env : CloudEnv) (folder filename : String) : DeleteEndpointResult :=
  let public_id := folder ++ "/" ++ filename
  match cloudinary_delete_file env public_id with
  | Except.ok m => DeleteEndpointResult.ok "success" m
  | Except.error m => DeleteEndpointResult.httpError 500 ("Error al eliminar archivo: " ++ m)

/-! ### Concrete environments, stores and messages used by the witnesses
and counterexamples -/

/-- A worker environment in which every oracle fails: PIL decodes nothing,
the AI adapter raises, uploads fail. -/
def env0 : WorkerEnv where
  decodeImage := fun _ => none
  encodeImage := fun _ _ _ => []
  ai := fun _ _ _ _ _ => Except.error AIError.contentViolation
  uploadOk := fun _ => false
  webhookOutcome := WebhookOutcome.ok200

/-- A tattoo_application message missing body_filename. -/
def msg1 : Message := { task_type := some "tattoo_application" }

/-- A tattoo_application message with a body filename but missing
tattoo_filename. -/
def msg3 : Message :=
  { task_type := some "tattoo_application", body_filename := some "b" }

/-- A well-formed tattoo_application message referencing inputs b and t. -/
def msgCV : Message :=
  { task_type := some "tattoo_application",
    body_filename := some "b", tattoo_filename := some "t" }

/-- A store holding both inputs of msgCV in the default input folder. -/
def stIn : Store := [("input-images/b", [1]), ("input-images/t", [2])]

/-- A base64 oracle that decodes nothing. -/
def b64none : String → Option Bytes := fun _ => none

/-- A Reve response flagging a content-policy violation. -/
def rrCV : ReveResponse := { content_violation := true, image := none }

/-- A worker environment whose AI adapter is apply_tattoo_to_body run
against the content-violation response rrCV. -/
def envCV : WorkerEnv where
  decodeImage := fun _ => none
  encodeImage := fun _ _ _ => []
  ai := fun _ _ _ _ _ => apply_tattoo_to_body b64none (ReveOutcome.response rrCV)
  uploadOk := fun _ => false
  webhookOutcome := WebhookOutcome.ok200

/-- A worker environment in which everything succeeds: the AI adapter
returns the bytes [7, 7], every blob decodes as a 512 x 512 PNG, and all
uploads succeed.  The webhook POST gets a non-200 answer, which must not
matter. -/
def envS : WorkerEnv where
  decodeImage := fun _ => some { width := 512, height := 512, fmt := some "PNG" }
  encodeImage := fun w h _ => [w, h]
  ai := fun _ _ _ _ _ => Except.ok [7, 7]
  uploadOk := fun _ => true
  webhookOutcome := WebhookOutcome.non200

/-- A well-formed tattoo_application message with a job id in its
metadata. -/
def msgS : Message :=
  { task_type := some "tattoo_application",
    body_filename := some "body_b", tattoo_filename := some "tattoo_t",
    metadata := { jobId := some "J1" } }

/-- A store holding both inputs of msgS. -/
def stS : Store := [("input-images/body_b", [1]), ("input-images/tattoo_t", [2])]

/-- A worker environment for the legacy task: blobs decode as a 500 x 400
JPEG and uploads succeed. -/
def envL : WorkerEnv where
  decodeImage := fun _ => some { width := 500, height := 400, fmt := some "JPEG" }
  encodeImage := fun w h _ => [w, h]
  ai := fun _ _ _ _ _ => Except.error (AIError.valueError "unused")
  uploadOk := fun _ => true
  webhookOutcome := WebhookOutcome.ok200

/-- A legacy image_processing message. -/
def msgL : Message :=
  { task_type := some "image_processing",
    filename := some "img1", bucket := some "photos" }

/-- A store holding the legacy input image. -/
def stL : Store := [("photos/img1", [9])]

/-- An intake environment whose json.loads always fails, with services
available. -/
def envApiBad : ApiEnv where
  servicesOk := true
  jsonList := fun _ => none
  decodeImage := fun _ => none
  uploadOk := fun _ => false
  publishOk := false
  bodyUuid := "u1"
  tattooUuid := "u2"
  jobUuid := "j"

/-- An upload request with a malformed styles parameter and a non-image
body content type. -/
def reqBad : UploadRequest :=
  { body_image := { content_type := some "text/plain", content := [0] },
    tattoo_image := { content_type := some "image/png", content := [1] },
    styles := some "x" }

/-- An intake environment in which everything succeeds. -/
def envApiOk : ApiEnv where
  servicesOk := true
  jsonList := fun _ => some []
  decodeImage := fun _ => some { width := 1, height := 1, fmt := none }
  uploadOk := fun _ => true
  publishOk := true
  bodyUuid := "u1"
  tattooUuid := "u2"
  jobUuid := "j"

/-- An upload request whose body content type is not an image (no styles
or colors parameters supplied). -/
def reqBadCT : UploadRequest :=
  { body_image := { content_type := some "text/plain", content := [] },
    tattoo_image := { content_type := some "image/png", content := [] } }

/-- A Cloudinary environment where every object exists and destroy
reports ok. -/
def envC : CloudEnv where
  unsignedUrl := fun p => "https://res.cloudinary.com/demo/" ++ p
  signedUrl := fun p _ => "signed/" ++ p
  now := 0
  file_exists := fun _ => true
  destroy := fun _ => DestroyOutcome.okRes

/-- A Cloudinary environment where destroy reports that the object was
not found (no exception). -/
def envCnf : CloudEnv where
  unsignedUrl := fun p => "https://res.cloudinary.com/demo/" ++ p
  signedUrl := fun p _ => "signed/" ++ p
  now := 0
  file_exists := fun _ => false
  destroy := fun _ => DestroyOutcome.notFound

/-! ### Helper lemmas -/

theorem findObj_putObj (st : Store) (k : String) (v : Bytes) :
    findObj (putObj st k v) k = some v := by
  simp [putObj, findObj]

/-- Bounds for round_aspect1 in the branch where it is used (w ≤ h): the
result is at most 300 and its ratio to 300 differs from w / h by at most
1 / 300, stated multiplicatively (result * h within h of 300 * w). -/
theorem round_aspect1_bounds (w h : Nat) (hw : 0 < w) (hh : 0 < h) (hwh : w ≤ h) :
    round_aspect1 w h ≤ 300 ∧
    round_aspect1 w h * h ≤ 300 * w + h ∧
    300 * w ≤ round_aspect1 w h * h + h := by
  have hdm := Nat.div_add_mod (300 * w) h
  have hmlt : 300 * w % h < h := Nat.mod_lt _ hh
  have hdm2 := Nat.div_add_mod (300 * w + h - 1) h
  have hmlt2 : (300 * w + h - 1) % h < h := Nat.mod_lt _ hh
  have hmono : 300 * w ≤ 300 * h := Nat.mul_le_mul_left 300 hwh
  simp only [round_aspect1, ceilDiv]
  set q := 300 * w / h with hq
  set q2 := (300 * w + h - 1) / h with hq2
  set r := 300 * w % h with hr
  set r2 := (300 * w + h - 1) % h with hr2
  have hfle : h * q ≤ 300 * w := Nat.le.intro hdm
  have hflt : 300 * w < h * q + h := by
    calc 300 * w = h * q + r := hdm.symm
    _ < h * q + h := Nat.add_lt_add_left hmlt _
  have hcge : 300 * w ≤ h * q2 := by
    have hx : h * q2 + r2 = 300 * w + h - 1 := hdm2
    generalize hA : h * q2 = A at hx ⊢
    omega
  have hcle : h * q2 ≤ 300 * w + h - 1 := Nat.le.intro hdm2
  have hqle : q ≤ 300 := by
    have hx : h * q ≤ h * 300 := by
      calc h * q ≤ 300 * w := hfle
      _ ≤ 300 * h := hmono
      _ = h * 300 := Nat.mul_comm _ _
    exact Nat.le_of_mul_le_mul_left hx hh
  have hq2le : q2 ≤ 300 := by
    have hx : h * q2 < h * 301 := by
      have h1 : h * q2 ≤ 300 * h + h - 1 := by omega
      have h2 : 300 * h + h - 1 < h * 301 := by
        have : 300 * h + h = h * 301 := by ring
        omega
      omega
    exact Nat.le_of_lt_succ (Nat.lt_of_mul_lt_mul_left hx)
  split
  · rcases Nat.eq_zero_or_pos q with h0 | h0
    · rw [h0] at hfle hflt ⊢
      simp only [Nat.mul_zero, Nat.zero_add] at hflt
      refine ⟨by omega, ?_, ?_⟩
      · have : max 0 1 * h = h := by simp
        omega
      · have : max 0 1 * h = h := by simp
        omega
    · rw [max_eq_left h0]
      refine ⟨hqle, ?_, ?_⟩
      · rw [Nat.mul_comm q h]; omega
      · rw [Nat.mul_comm q h]; omega
  · rcases Nat.eq_zero_or_pos q2 with h0 | h0
    · exfalso
      rw [h0, Nat.mul_zero] at hcge
      omega
    · rw [max_eq_left h0]
      refine ⟨hq2le, ?_, ?_⟩
      · rw [Nat.mul_comm q2 h]; omega
      · rw [Nat.mul_comm q2 h]; omega

/-- Bounds for round_aspect2 in the branch where it is used (h ≤ w). -/
theorem round_aspect2_bounds (w h : Nat) (hw : 0 < w) (hh : 0 < h) (hwh : h ≤ w) :
    round_aspect2 w h ≤ 300 ∧
    round_aspect2 w h * w ≤ 300 * h + w ∧
    300 * h ≤ round_aspect2 w h * w + w := by
  have hdm := Nat.div_add_mod (300 * h) w
  have hmlt : 300 * h % w < w := Nat.mod_lt _ hw
  have hdm2 := Nat.div_add_mod (300 * h + w - 1) w
  have hmlt2 : (300 * h + w - 1) % w < w := Nat.mod_lt _ hw
  have hmono : 300 * h ≤ 300 * w := Nat.mul_le_mul_left 300 hwh
  simp only [round_aspect2, ceilDiv]
  set q := 300 * h / w with hq
  set q2 := (300 * h + w - 1) / w with hq2
  set r := 300 * h % w with hr
  set r2 := (300 * h + w - 1) % w with hr2
  have hfle : w * q ≤ 300 * h := Nat.le.intro hdm
  have hflt : 300 * h < w * q + w := by
    calc 300 * h = w * q + r := hdm.symm
    _ < w * q + w := Nat.add_lt_add_left hmlt _
  have hcge : 300 * h ≤ w * q2 := by
    have hx : w * q2 + r2 = 300 * h + w - 1 := hdm2
    generalize hA : w * q2 = A at hx ⊢
    omega
  have hcle : w * q2 ≤ 300 * h + w - 1 := Nat.le.intro hdm2
  have hqle : q ≤ 300 := by
    have hx : w * q ≤ w * 300 := by
      calc w * q ≤ 300 * h := hfle
      _ ≤ 300 * w := hmono
      _ = w * 300 := Nat.mul_comm _ _
    exact Nat.le_of_mul_le_mul_left hx hw
  have hq2le : q2 ≤ 300 := by
    have hx : w * q2 < w * 301 := by
      have h1 : w * q2 ≤ 300 * w + w - 1 := by omega
      have h2 : 300 * w + w - 1 < w * 301 := by
        have : 300 * w + w = w * 301 := by ring
        omega
      omega
    exact Nat.le_of_lt_succ (Nat.lt_of_mul_lt_mul_left hx)
  split
  · -- q = 0 branch of the definition: the pick is q = 0, clamped to 1
    rename_i h0
    rw [h0] at hfle hflt ⊢
    simp only [Nat.mul_zero, Nat.zero_add] at hflt
    refine ⟨by omega, ?_, ?_⟩
    · have : max 0 1 * w = w := by simp
      omega
    · have : max 0 1 * w = w := by simp
      omega
  · split
    · rename_i h0 _
      have h0' : 0 < q := Nat.pos_of_ne_zero h0
      rw [max_eq_left h0']
      refine ⟨hqle, ?_, ?_⟩
      · rw [Nat.mul_comm q w]; omega
      · rw [Nat.mul_comm q w]; omega
    · rcases Nat.eq_zero_or_pos q2 with h0 | h0
      · exfalso
        rw [h0, Nat.mul_zero] at hcge
        omega
      · rw [max_eq_left h0]
        refine ⟨hq2le, ?_, ?_⟩
        · rw [Nat.mul_comm q2 w]; omega
        · rw [Nat.mul_comm q2 w]; omega

/-- PIL thumbnail with box (300, 300): both resulting sides are at most
300, and the aspect ratio is preserved up to the integer rounding of one
side: the cross products of old and new dimensions differ by at most the
longer original side (exact preservation is impossible with integer
dimensions). -/
theorem pil_thumbnail_spec (w h : Nat) (hw : 0 < w) (hh : 0 < h) :
    (pil_thumbnail w h).1 ≤ 300 ∧ (pil_thumbnail w h).2 ≤ 300 ∧
    (pil_thumbnail w h).1 * h ≤ w * (pil_thumbnail w h).2 + max w h ∧
    w * (pil_thumbnail w h).2 ≤ (pil_thumbnail w h).1 * h + max w h := by
  unfold pil_thumbnail
  split
  · rename_i hfit
    obtain ⟨h1, h2⟩ := hfit
    refine ⟨h1, h2, ?_, ?_⟩
    · simp only
      exact Nat.le_add_right _ _
    · simp only
      exact Nat.le_add_right _ _
  · split
    · rename_i hwh
      have hb := round_aspect1_bounds w h hw hh hwh
      have hmax : max w h = h := max_eq_right hwh
      refine ⟨hb.1, le_refl 300, ?_, ?_⟩
      · simp only [hmax, Nat.mul_comm w 300]
        exact hb.2.1
      · simp only [hmax, Nat.mul_comm w 300]
        exact hb.2.2
    · rename_i hwh
      have hwh' : h ≤ w := le_of_not_le (fun hc => hwh hc)
      have hb := round_aspect2_bounds w h hw hh hwh'
      have hmax : max w h = w := max_eq_left hwh'
      refine ⟨le_refl 300, hb.1, ?_, ?_⟩
      · simp only [hmax, Nat.mul_comm w (round_aspect2 w h)]
        exact hb.2.2
      · simp only [hmax, Nat.mul_comm w (round_aspect2 w h)]
        exact hb.2.1

/-- On the full success path (valid fields, both inputs present, AI ok,
output decodable, upload ok) process_tattoo_task stores the result bytes
under output_folder/result_(body_filename) and reports every effect in
order, with the webhook POST appended exactly when metadata.jobId is
truthy. -/
theorem process_tattoo_success (env : WorkerEnv) (st : Store) (msg : Message)
    (bdata tdata rb : Bytes) (info : ImgInfo)
    (htt : msg.task_type = some "tattoo_application")
    (hbf : truthy msg.body_filename = true)
    (htf : truthy msg.tattoo_filename = true)
    (hfb : findObj st (msg.input_folder.getD "input-images" ++ "/" ++ msg.body_filename.getD "") = some bdata)
    (hft : findObj st (msg.input_folder.getD "input-images" ++ "/" ++ msg.tattoo_filename.getD "") = some tdata)
    (hai : env.ai bdata tdata msg.styles msg.colors msg.description = Except.ok rb)
    (hdec : env.decodeImage rb = some info)
    (hup : env.uploadOk (msg.output_folder.getD "output-images" ++ "/" ++ ("result_" ++ msg.body_filename.getD "")) = true) :
    process_tattoo_task env st msg =
      ⟨TaskExit.completed,
        putObj st (msg.output_folder.getD "output-images" ++ "/" ++ ("result_" ++ msg.body_filename.getD "")) rb,
        [Effect.aiCall, Effect.validatedImg info.width info.height,
         Effect.upload (msg.output_folder.getD "output-images" ++ "/" ++ ("result_" ++ msg.body_filename.getD ""))] ++
          (if truthy msg.metadata.jobId then [Effect.webhook (msg.metadata.jobId.getD "")] else [])⟩ := by
  have h1 : truthy (some "tattoo_application") = true := rfl
  unfold process_tattoo_task
  simp only [htt, h1, hbf, htf, hfb, hft, hai, hdec, hup, send_webhook_result,
    Bool.not_true, Bool.false_eq_true, if_false, ne_eq, not_true_eq_false, ite_false]
  cases hj : truthy msg.metadata.jobId <;> simp [hj]

/-- C1 is refuted here: a tattoo_application message lacking body_filename
makes process_tattoo_task return early (background/work.py lines 90-92),
so the wrapper acks it (rabbitmq_client.py line 186) although no output
was validated and nothing was stored: the claimed implication
acknowledged implies validated-and-stored is false. -/
theorem c1_counterexample :
    ¬ ((wrapper_callback env0 false [] (ParseOutcome.ok msg1)).1 = AckAction.ack →
        hasValidated (wrapper_callback env0 false [] (ParseOutcome.ok msg1)).2.2 = true ∧
        hasUpload (wrapper_callback env0 false [] (ParseOutcome.ok msg1)).2.2 = true) := by
  decide

/-- C1 (amended): a tattoo_application message is acknowledged iff its
processing did not raise; when processing raises it is nacked with
requeue=true; and on the completed pipeline path the output was validated
and uploaded before the acknowledgment.  Early-return paths (missing
field, missing input, undecodable AI output) are however also
acknowledged, without validation or store. -/
theorem c1_theorem (env : WorkerEnv) (st : Store) (msg : Message)
    (htt : msg.task_type = some "tattoo_application") :
    ((wrapper_callback env false st (ParseOutcome.ok msg)).1 = AckAction.ack ↔
      (process_tattoo_task env st msg).exit ≠ TaskExit.raised) ∧
    ((process_tattoo_task env st msg).exit = TaskExit.raised →
      (wrapper_callback env false st (ParseOutcome.ok msg)).1 = AckAction.nackRequeue) ∧
    ((process_tattoo_task env st msg).exit = TaskExit.completed →
      hasValidated (process_tattoo_task env st msg).effects = true ∧
      hasUpload (process_tattoo_task env st msg).effects = true) := by
  have hroute : route_message env st msg = process_tattoo_task env st msg := by
    simp [route_message, htt]
  refine ⟨?_, ?_, ?_⟩
  · cases hE : (process_tattoo_task env st msg).exit <;>
      simp [wrapper_callback, hroute, hE]
  · intro hE
    simp [wrapper_callback, hroute, hE]
  · intro hC
    have hcase : (process_tattoo_task env st msg).exit ≠ TaskExit.completed ∨
        (hasValidated (process_tattoo_task env st msg).effects = true ∧
         hasUpload (process_tattoo_task env st msg).effects = true) := by
      unfold process_tattoo_task
      split
      · simp
      split
      · simp
      split
      · simp
      split
      · simp
      cases hfb : findObj st (msg.input_folder.getD "input-images" ++ "/" ++ msg.body_filename.getD "") with
      | none => simp [hfb]
      | some bdata =>
        cases hft : findObj st (msg.input_folder.getD "input-images" ++ "/" ++ msg.tattoo_filename.getD "") with
        | none => simp [hfb, hft]
        | some tdata =>
          cases hav : env.ai bdata tdata msg.styles msg.colors msg.description with
          | error e => simp [hfb, hft, hav]
          | ok rb =>
            cases hdec : env.decodeImage rb with
            | none => simp [hfb, hft, hav, hdec]
            | some info =>
              cases hup : env.uploadOk (msg.output_folder.getD "output-images" ++ "/" ++ ("result_" ++ msg.body_filename.getD "")) with
              | false => simp [hfb, hft, hav, hdec, hup]
              | true =>
                cases hj : truthy msg.metadata.jobId <;>
                  simp [hfb, hft, hav, hdec, hup, hj, hasValidated, hasUpload,
                    send_webhook_result]
    rcases hcase with hcase | hcase
    · exact absurd hC hcase
    · exact hcase

theorem c1_witness :
    ((wrapper_callback envS false stS (ParseOutcome.ok msgS)).1 = AckAction.ack ↔
      (process_tattoo_task envS stS msgS).exit ≠ TaskExit.raised) ∧
    ((process_tattoo_task envS stS msgS).exit = TaskExit.raised →
      (wrapper_callback envS false stS (ParseOutcome.ok msgS)).1 = AckAction.nackRequeue) ∧
    ((process_tattoo_task envS stS msgS).exit = TaskExit.completed →
      hasValidated (process_tattoo_task envS stS msgS).effects = true ∧
      hasUpload (process_tattoo_task envS stS msgS).effects = true) :=
  c1_theorem envS stS msgS rfl

/-- C2 is refuted here: a delivered body that is not valid UTF-8 (for
example the single byte 0xFF) is not decodable JSON, yet
body.decode(utf-8) raises UnicodeDecodeError - not json.JSONDecodeError -
so the generic handler nacks it with requeue=true
(rabbitmq_client.py lines 192-196) instead of the claimed permanent
rejection with requeue=false. -/
theorem c2_counterexample :
    (wrapper_callback env0 false [] ParseOutcome.unicodeDecodeError).1 = AckAction.nackRequeue ∧
    (wrapper_callback env0 false [] ParseOutcome.unicodeDecodeError).1 ≠ AckAction.nackDrop := by
  decide

/-- C2 (amended): a body that decodes as UTF-8 but is not valid JSON is
nacked with requeue=false; a body that is not valid UTF-8 is nacked with
requeue=true (its UnicodeDecodeError falls into the generic handler); a
callback that raises is nacked with requeue=true; and a callback that
returns normally is acked. -/
theorem c2_theorem (env : WorkerEnv) (st : Store) :
    (wrapper_callback env false st ParseOutcome.jsonDecodeError).1 = AckAction.nackDrop ∧
    (wrapper_callback env false st ParseOutcome.unicodeDecodeError).1 = AckAction.nackRequeue ∧
    (∀ m : Message, (route_message env st m).exit = TaskExit.raised →
      (wrapper_callback env false st (ParseOutcome.ok m)).1 = AckAction.nackRequeue) ∧
    (∀ m : Message, (route_message env st m).exit ≠ TaskExit.raised →
      (wrapper_callback env false st (ParseOutcome.ok m)).1 = AckAction.ack) := by
  refine ⟨rfl, rfl, ?_, ?_⟩
  · intro m hE
    simp [wrapper_callback, hE]
  · intro m hE
    cases hx : (route_message env st m).exit with
    | raised => exact absurd hx hE
    | completed => simp [wrapper_callback, hx]
    | earlyReturn => simp [wrapper_callback, hx]

theorem c2_witness :
    (wrapper_callback env0 false [] ParseOutcome.jsonDecodeError).1 = AckAction.nackDrop ∧
    (wrapper_callback env0 false stIn (ParseOutcome.ok msgCV)).1 = AckAction.nackRequeue :=
  ⟨(c2_theorem env0 []).1, (c2_theorem env0 stIn).2.2.1 msgCV (by decide)⟩

/-- C3 is refuted here: a tattoo_application message missing
tattoo_filename does make the task return early without raising, but the
consumer then positively acknowledges it (callback returned normally, so
basic_ack runs at rabbitmq_client.py line 186): the message is not left
unacknowledged. -/
theorem c3_counterexample :
    (process_tattoo_task env0 [] msg3).exit = TaskExit.earlyReturn ∧
    (wrapper_callback env0 false [] (ParseOutcome.ok msg3)).1 = AckAction.ack ∧
    (wrapper_callback env0 false [] (ParseOutcome.ok msg3)).1 ≠ AckAction.noAction := by
  decide

/-- C3 (amended): on a missing required field or a missing input image
the task function returns early without raising, and the consumer then
positively acknowledges the message (it is neither requeued nor left
pending). -/
theorem c3_theorem (env : WorkerEnv) (st : Store) (msg : Message)
    (htt : msg.task_type = some "tattoo_application")
    (h : truthy msg.body_filename = false ∨ truthy msg.tattoo_filename = false ∨
         findObj st (msg.input_folder.getD "input-images" ++ "/" ++ msg.body_filename.getD "") = none ∨
         findObj st (msg.input_folder.getD "input-images" ++ "/" ++ msg.tattoo_filename.getD "") = none) :
    (process_tattoo_task env st msg).exit = TaskExit.earlyReturn ∧
    (wrapper_callback env false st (ParseOutcome.ok msg)).1 = AckAction.ack := by
  have h1 : truthy msg.task_type = true := by rw [htt]; rfl
  have hroute : route_message env st msg = process_tattoo_task env st msg := by
    simp [route_message, htt]
  have hexit : (process_tattoo_task env st msg).exit = TaskExit.earlyReturn := by
    unfold process_tattoo_task
    cases hb : truthy msg.body_filename with
    | false => simp [h1, htt, hb]
    | true =>
      cases ht2 : truthy msg.tattoo_filename with
      | false => simp [h1, htt, hb, ht2]
      | true =>
        rcases h with h | h | h | h
        · rw [hb] at h; exact absurd h (by simp)
        · rw [ht2] at h; exact absurd h (by simp)
        · simp [h1, htt, hb, ht2, h]
        · cases hfb : findObj st (msg.input_folder.getD "input-images" ++ "/" ++ msg.body_filename.getD "") with
          | none => simp [h1, htt, hb, ht2, hfb]
          | some b => simp [h1, htt, hb, ht2, hfb, h]
  refine ⟨hexit, ?_⟩
  simp [wrapper_callback, hroute, hexit]

theorem c3_witness :
    (process_tattoo_task env0 [] msg3).exit = TaskExit.earlyReturn ∧
    (wrapper_callback env0 false [] (ParseOutcome.ok msg3)).1 = AckAction.ack :=
  c3_theorem env0 [] msg3 rfl (Or.inr (Or.inl rfl))

/-- C4: when the Reve response flags a content-policy violation,
apply_tattoo_to_body raises (ai_client.py lines 168-172), the worker task
re-raises (background/work.py line 230) with the store untouched and no
upload performed, and the consumer nacks the delivery with requeue=true,
so a retry starts from an unchanged output state. -/
theorem c4_theorem (b64 : String → Option Bytes) (rr : ReveResponse)
    (env : WorkerEnv) (st : Store) (msg : Message) (bdata tdata : Bytes)
    (hai : env.ai = fun _ _ _ _ _ => apply_tattoo_to_body b64 (ReveOutcome.response rr))
    (hcv : rr.content_violation = true)
    (htt : msg.task_type = some "tattoo_application")
    (hbf : truthy msg.body_filename = true)
    (htf : truthy msg.tattoo_filename = true)
    (hfb : findObj st (msg.input_folder.getD "input-images" ++ "/" ++ msg.body_filename.getD "") = some bdata)
    (hft : findObj st (msg.input_folder.getD "input-images" ++ "/" ++ msg.tattoo_filename.getD "") = some tdata) :
    (process_tattoo_task env st msg).exit = TaskExit.raised ∧
    (process_tattoo_task env st msg).store = st ∧
    hasUpload (process_tattoo_task env st msg).effects = false ∧
    (wrapper_callback env false st (ParseOutcome.ok msg)).1 = AckAction.nackRequeue := by
  have h1 : truthy (some "tattoo_application") = true := rfl
  have haiv : env.ai bdata tdata msg.styles msg.colors msg.description =
      Except.error AIError.contentViolation := by
    rw [hai]
    simp [apply_tattoo_to_body, hcv]
  have hp : process_tattoo_task env st msg = ⟨TaskExit.raised, st, [Effect.aiCall]⟩ := by
    unfold process_tattoo_task
    simp [h1, htt, hbf, htf, hfb, hft, haiv]
  have hroute : route_message env st msg = process_tattoo_task env st msg := by
    simp [route_message, htt]
  refine ⟨by rw [hp], by rw [hp], by rw [hp]; rfl, ?_⟩
  simp [wrapper_callback, hroute, hp]

theorem c4_witness :
    (process_tattoo_task envCV stIn msgCV).exit = TaskExit.raised ∧
    (process_tattoo_task envCV stIn msgCV).store = stIn ∧
    hasUpload (process_tattoo_task envCV stIn msgCV).effects = false ∧
    (wrapper_callback envCV false stIn (ParseOutcome.ok msgCV)).1 = AckAction.nackRequeue :=
  c4_theorem b64none rrCV envCV stIn msgCV [1] [2] rfl rfl rfl (by decide) (by decide)
    (by decide) (by decide)

/-- C5 is refuted here: for the job with body_filename body_b, the
Cloudinary worker stores the result under output-images/result_body_b
(background/work.py line 166: no extension appended), while the intake
endpoint reports expected_output result_body_b.png (main.py line 309):
nothing is stored under the reported expected_output key, and the two
names differ. -/
theorem c5_counterexample :
    findObj (process_tattoo_task envS stS msgS).store
        ("output-images/" ++ "result_body_b") = some [7, 7] ∧
    findObj (process_tattoo_task envS stS msgS).store
        ("output-images/" ++ expected_output "body_b") = none ∧
    expected_output "body_b" ≠ "result_body_b" := by
  decide

/-- C5 (amended): on the success path the worker uploads the validated
result bytes under exactly output_folder/result_(body_filename); the
intake endpoint however reports expected_output
result_(body_filename).png, which is never equal to the stored object
name. -/
theorem c5_theorem (env : WorkerEnv) (st : Store) (msg : Message)
    (bdata tdata rb : Bytes) (info : ImgInfo)
    (htt : msg.task_type = some "tattoo_application")
    (hbf : truthy msg.body_filename = true)
    (htf : truthy msg.tattoo_filename = true)
    (hfb : findObj st (msg.input_folder.getD "input-images" ++ "/" ++ msg.body_filename.getD "") = some bdata)
    (hft : findObj st (msg.input_folder.getD "input-images" ++ "/" ++ msg.tattoo_filename.getD "") = some tdata)
    (hai : env.ai bdata tdata msg.styles msg.colors msg.description = Except.ok rb)
    (hdec : env.decodeImage rb = some info)
    (hup : env.uploadOk (msg.output_folder.getD "output-images" ++ "/" ++ ("result_" ++ msg.body_filename.getD "")) = true) :
    (process_tattoo_task env st msg).exit = TaskExit.completed ∧
    findObj (process_tattoo_task env st msg).store
        (msg.output_folder.getD "output-images" ++ "/" ++ ("result_" ++ msg.body_filename.getD "")) = some rb ∧
    hasUpload (process_tattoo_task env st msg).effects = true ∧
    expected_output (msg.body_filename.getD "") =
      "result_" ++ msg.body_filename.getD "" ++ ".png" ∧
    expected_output (msg.body_filename.getD "") ≠ "result_" ++ msg.body_filename.getD "" := by
  have hp := process_tattoo_success env st msg bdata tdata rb info htt hbf htf hfb hft hai hdec hup
  refine ⟨by rw [hp], ?_, ?_, rfl, ?_⟩
  · rw [hp]
    exact findObj_putObj _ _ _
  · rw [hp]
    cases hj : truthy msg.metadata.jobId <;> simp [hj, hasUpload]
  · intro hEq
    have hlen := congrArg String.length hEq
    simp only [expected_output, String.length_append] at hlen
    have h4 : ".png".length = 4 := rfl
    omega

theorem c5_witness :
    (process_tattoo_task envS stS msgS).exit = TaskExit.completed ∧
    findObj (process_tattoo_task envS stS msgS).store
        (msgS.output_folder.getD "output-images" ++ "/" ++ ("result_" ++ msgS.body_filename.getD "")) = some [7, 7] ∧
    hasUpload (process_tattoo_task envS stS msgS).effects = true ∧
    expected_output (msgS.body_filename.getD "") =
      "result_" ++ msgS.body_filename.getD "" ++ ".png" ∧
    expected_output (msgS.body_filename.getD "") ≠ "result_" ++ msgS.body_filename.getD "" :=
  c5_theorem envS stS msgS [1] [2] [7, 7] { width := 512, height := 512, fmt := some "PNG" }
    rfl rfl rfl (by decide) (by decide) rfl rfl rfl

/-- C6 is refuted here: a request whose body upload declares text/plain
but whose styles parameter is malformed JSON is answered with the styles
400 (main.py lines 154-161, which run before the content-type checks of
lines 175-187), not with a 400 naming the failing upload; no store write
and no publish happen either way. -/
theorem c6_counterexample :
    ¬ ((upload_tattoo_images envApiBad reqBad).1 =
          ApiResult.httpError 400 (invalid_type_detail "body_image" reqBad.body_image.content_type) ∨
       (upload_tattoo_images envApiBad reqBad).1 =
          ApiResult.httpError 400 (invalid_type_detail "tattoo_image" reqBad.tattoo_image.content_type)) ∧
    (upload_tattoo_images envApiBad reqBad).1 = ApiResult.httpError 400 styles_error_detail ∧
    (upload_tattoo_images envApiBad reqBad).2 = [] := by
  decide

/-- C6 (amended): with services available and the optional styles and
colors parameters parsing (or absent), a request in which either upload
declares a non-image content type is rejected with a 400 whose detail
names the failing upload, and no object-store write and no queue publish
are performed.  A malformed styles or colors parameter takes precedence
and yields its own 400 first (still with no writes). -/
theorem c6_theorem (env : ApiEnv) (req : UploadRequest)
    (hsvc : env.servicesOk = true)
    (hst : param_parses env.jsonList req.styles = true)
    (hco : param_parses env.jsonList req.colors = true)
    (hbad : image_content_type req.body_image.content_type = false ∨
            image_content_type req.tattoo_image.content_type = false) :
    ((upload_tattoo_images env req).1 =
       ApiResult.httpError 400 (invalid_type_detail "body_image" req.body_image.content_type) ∨
     (upload_tattoo_images env req).1 =
       ApiResult.httpError 400 (invalid_type_detail "tattoo_image" req.tattoo_image.content_type)) ∧
    (upload_tattoo_images env req).2 = [] := by
  obtain ⟨ps, hps⟩ := Option.isSome_iff_exists.mp hst
  obtain ⟨pc, hpc⟩ := Option.isSome_iff_exists.mp hco
  unfold upload_tattoo_images
  simp only [hsvc, Bool.not_true, Bool.false_eq_true, if_false, ite_false, hps, hpc]
  cases hb : image_content_type req.body_image.content_type with
  | false => simp [hb]
  | true =>
    rcases hbad with hbad | hbad
    · rw [hb] at hbad
      exact absurd hbad (by simp)
    · simp [hb, hbad]

theorem c6_witness :
    ((upload_tattoo_images envApiOk reqBadCT).1 =
       ApiResult.httpError 400 (invalid_type_detail "body_image" reqBadCT.body_image.content_type) ∨
     (upload_tattoo_images envApiOk reqBadCT).1 =
       ApiResult.httpError 400 (invalid_type_detail "tattoo_image" reqBadCT.tattoo_image.content_type)) ∧
    (upload_tattoo_images envApiOk reqBadCT).2 = [] :=
  c6_theorem envApiOk reqBadCT rfl rfl rfl (Or.inl (by decide))

/-- C7: on a successfully completed tattoo_application job the webhook
POST is attempted if and only if metadata.jobId is truthy (it then
carries that job id), and - since send_webhook_result swallows every
failure and the environment here is arbitrary, including a failing
webhook - the delivery is acknowledged regardless of the POST outcome, so
the job is never redelivered because of it. -/
theorem c7_theorem (env : WorkerEnv) (st : Store) (msg : Message)
    (bdata tdata rb : Bytes) (info : ImgInfo)
    (htt : msg.task_type = some "tattoo_application")
    (hbf : truthy msg.body_filename = true)
    (htf : truthy msg.tattoo_filename = true)
    (hfb : findObj st (msg.input_folder.getD "input-images" ++ "/" ++ msg.body_filename.getD "") = some bdata)
    (hft : findObj st (msg.input_folder.getD "input-images" ++ "/" ++ msg.tattoo_filename.getD "") = some tdata)
    (hai : env.ai bdata tdata msg.styles msg.colors msg.description = Except.ok rb)
    (hdec : env.decodeImage rb = some info)
    (hup : env.uploadOk (msg.output_folder.getD "output-images" ++ "/" ++ ("result_" ++ msg.body_filename.getD "")) = true) :
    (process_tattoo_task env st msg).exit = TaskExit.completed ∧
    hasWebhook (process_tattoo_task env st msg).effects = truthy msg.metadata.jobId ∧
    (truthy msg.metadata.jobId = true →
      Effect.webhook (msg.metadata.jobId.getD "") ∈ (process_tattoo_task env st msg).effects) ∧
    (wrapper_callback env false st (ParseOutcome.ok msg)).1 = AckAction.ack := by
  have hp := process_tattoo_success env st msg bdata tdata rb info htt hbf htf hfb hft hai hdec hup
  have hroute : route_message env st msg = process_tattoo_task env st msg := by
    simp [route_message, htt]
  refine ⟨by rw [hp], ?_, ?_, ?_⟩
  · rw [hp]
    cases hj : truthy msg.metadata.jobId <;> simp [hj, hasWebhook]
  · intro hj
    rw [hp]
    simp [hj]
  · simp [wrapper_callback, hroute, hp]

theorem c7_witness :
    (process_tattoo_task envS stS msgS).exit = TaskExit.completed ∧
    hasWebhook (process_tattoo_task envS stS msgS).effects = truthy msgS.metadata.jobId ∧
    (truthy msgS.metadata.jobId = true →
      Effect.webhook (msgS.metadata.jobId.getD "") ∈ (process_tattoo_task envS stS msgS).effects) ∧
    (wrapper_callback envS false stS (ParseOutcome.ok msgS)).1 = AckAction.ack :=
  c7_theorem envS stS msgS [1] [2] [7, 7] { width := 512, height := 512, fmt := some "PNG" }
    rfl rfl rfl (by decide) (by decide) rfl rfl rfl

/-- C8: an image_processing job whose image exists and decodes produces a
thumbnail via PIL thumbnail((300, 300)) - both sides at most 300 and the
aspect ratio preserved up to integer rounding - and re-uploads it to the
same bucket under processed_(filename); the legacy path performs no AI
call and no webhook. -/
theorem c8_theorem (env : WorkerEnv) (st : Store) (msg : Message)
    (idata : Bytes) (info : ImgInfo)
    (htt : msg.task_type = some "image_processing")
    (hfn : truthy msg.filename = true)
    (hbk : truthy msg.bucket = true)
    (hfind : findObj st (msg.bucket.getD "" ++ "/" ++ msg.filename.getD "") = some idata)
    (hdec : env.decodeImage idata = some info)
    (hw : 0 < info.width) (hh : 0 < info.height)
    (hup : env.uploadOk (msg.bucket.getD "" ++ "/" ++ ("processed_" ++ msg.filename.getD "")) = true) :
    (route_message env st msg).exit = TaskExit.completed ∧
    findObj (route_message env st msg).store
        (msg.bucket.getD "" ++ "/" ++ ("processed_" ++ msg.filename.getD "")) =
      some (env.encodeImage (pil_thumbnail info.width info.height).1
        (pil_thumbnail info.width info.height).2 (formatOrPng info.fmt)) ∧
    (pil_thumbnail info.width info.height).1 ≤ 300 ∧
    (pil_thumbnail info.width info.height).2 ≤ 300 ∧
    (pil_thumbnail info.width info.height).1 * info.height ≤
      info.width * (pil_thumbnail info.width info.height).2 + max info.width info.height ∧
    info.width * (pil_thumbnail info.width info.height).2 ≤
      (pil_thumbnail info.width info.height).1 * info.height + max info.width info.height ∧
    hasAiCall (route_message env st msg).effects = false ∧
    hasWebhook (route_message env st msg).effects = false := by
  have hroute : route_message env st msg = process_legacy_image_task env st msg := by
    simp [route_message, htt]
  have hp : process_legacy_image_task env st msg =
      ⟨TaskExit.completed,
        putObj st (msg.bucket.getD "" ++ "/" ++ ("processed_" ++ msg.filename.getD ""))
          (env.encodeImage (pil_thumbnail info.width info.height).1
            (pil_thumbnail info.width info.height).2 (formatOrPng info.fmt)),
        [Effect.validatedImg (pil_thumbnail info.width info.height).1
           (pil_thumbnail info.width info.height).2,
         Effect.upload (msg.bucket.getD "" ++ "/" ++ ("processed_" ++ msg.filename.getD ""))]⟩ := by
    unfold process_legacy_image_task
    simp only [hfn, hbk, hfind, hdec, hup, Bool.not_true, Bool.false_eq_true, if_false,
      ite_false, ite_true, if_true]
  have hspec := pil_thumbnail_spec info.width info.height hw hh
  refine ⟨by rw [hroute, hp], ?_, hspec.1, hspec.2.1, hspec.2.2.1, hspec.2.2.2, ?_, ?_⟩
  · rw [hroute, hp]
    exact findObj_putObj _ _ _
  · rw [hroute, hp]
    rfl
  · rw [hroute, hp]
    rfl

theorem c8_witness :
    (route_message envL stL msgL).exit = TaskExit.completed ∧
    findObj (route_message envL stL msgL).store
        (msgL.bucket.getD "" ++ "/" ++ ("processed_" ++ msgL.filename.getD "")) =
      some (envL.encodeImage (pil_thumbnail 500 400).1 (pil_thumbnail 500 400).2
        (formatOrPng (some "JPEG"))) ∧
    (pil_thumbnail 500 400).1 ≤ 300 ∧
    (pil_thumbnail 500 400).2 ≤ 300 ∧
    (pil_thumbnail 500 400).1 * 400 ≤ 500 * (pil_thumbnail 500 400).2 + max 500 400 ∧
    500 * (pil_thumbnail 500 400).2 ≤ (pil_thumbnail 500 400).1 * 400 + max 500 400 ∧
    hasAiCall (route_message envL stL msgL).effects = false ∧
    hasWebhook (route_message envL stL msgL).effects = false :=
  c8_theorem envL stL msgL [9] { width := 500, height := 400, fmt := some "JPEG" }
    rfl rfl rfl (by decide) rfl (by decide) (by decide) rfl

/-- C9: for an existing object, GET /files/(folder)/(filename) returns the
unsigned URL - the handler leaves use_presigned at False, so the expires
query parameter has no effect on the URL - while the response body still
echoes the requested value as expires_in_seconds. -/
theorem c9_theorem (env : CloudEnv) (folder filename : String) (expires : Nat)
    (hex : env.file_exists (folder ++ "/" ++ filename) = true) :
    api_get_file_url env folder filename expires =
      UrlEndpointResult.ok
        { folder := folder, filename := filename,
          url := env.unsignedUrl (folder ++ "/" ++ filename),
          expires_in_seconds := expires } := by
  unfold api_get_file_url cloudinary_get_file_url
  simp [hex]

theorem c9_witness :
    api_get_file_url envC "output-images" "result_x" 3600 =
      UrlEndpointResult.ok
        { folder := "output-images", filename := "result_x",
          url := envC.unsignedUrl ("output-images" ++ "/" ++ "result_x"),
          expires_in_seconds := 3600 } :=
  c9_theorem envC "output-images" "result_x" 3600 rfl

/-- C10: whenever the destroy call does not raise, DELETE
/files/(folder)/(filename) answers status success - both when the object
was really deleted and when it did not exist (the latter only differs in
the warning message), so the two cases are indistinguishable at the
status level. -/
theorem c10_theorem (env : CloudEnv) (folder filename : String) :
    (env.destroy (folder ++ "/" ++ filename) = DestroyOutcome.okRes →
      api_delete_file env folder filename =
        DeleteEndpointResult.ok "success" (delete_ok_message (folder ++ "/" ++ filename))) ∧
    (env.destroy (folder ++ "/" ++ filename) = DestroyOutcome.notFound →
      api_delete_file env folder filename =
        DeleteEndpointResult.ok "success" (delete_warn_message (folder ++ "/" ++ filename))) := by
  constructor <;> intro h <;> simp [api_delete_file, cloudinary_delete_file, h]

theorem c10_witness :
    api_delete_file envCnf "input-images" "ghost" =
      DeleteEndpointResult.ok "success" (delete_warn_message ("input-images" ++ "/" ++ "ghost")) :=
  (c10_theorem envCnf "input-images" "ghost").2 rfl

end Tattoo
